import Mathlib

/-!
Verification development for the twilio_sdk_react repository.

The repository holds near-duplicate React components (VoiceClient.jsx and
its unnamed variants) around the Twilio voice SDK.  Its specification
describes one extractable unit, the CallSessionController call-session
state machine, together with two concrete helper routines that appear
verbatim in the source: the diagnostic log function and the getToken
token-acquisition function.

The development below embeds:
  - the diagnostic log routine (from the source log functions),
  - the token acquisition step (from the source getToken functions,
    in its two observed shapes),
  - the CallSessionController state machine.  The controller itself is
    not present as a standalone unit in the source tree, so it is
    modelled from the specification text (sections 3 to 7), with each
    transition annotated.
-/

namespace TwilioVoice

/-- The eight controller phases of the SessionState data model. -/
inductive Phase
  | Uninitialized
  | AcquiringToken
  | Registering
  | Ready
  | Dialing
  | InCall
  | Ending
  | Failed
deriving DecidableEq

/-- The error taxonomy of the specification (section 7). -/
inductive ErrorCode
  | PermissionDenied
  | TokenRequestFailed
  | EndpointError
  | NotReady
  | EmptyDestination
  | NoActiveCall
  | AlreadyInitialized
deriving DecidableEq

/-- Diagnostic severity, mirroring the info/success/error levels of the
source log function. -/
inductive DiagLevel
  | info
  | success
  | error
deriving DecidableEq

/-- One event sent to the append-only diagnostic sink.  The err field
carries the error code when the event reports a failure. -/
structure DiagEvent where
  level : DiagLevel
  err : Option ErrorCode
  msg : String
deriving DecidableEq

/-- SessionState, the only entity of the data model:
phase, deviceReady, activeCallId, muted, lastError. -/
structure SessionState where
  phase : Phase
  deviceReady : Bool
  activeCallId : Option Nat
  muted : Bool
  lastError : Option ErrorCode
deriving DecidableEq

/-- Full controller: the session value, the diagnostic sink (newest entry
first, as the source log prepends), and a count of token POST requests
issued to the backend. -/
structure Controller where
  session : SessionState
  diag : List DiagEvent
  tokenRequests : Nat
deriving DecidableEq

/-- An informational diagnostic event. -/
def infoEvt (m : String) : DiagEvent := ⟨DiagLevel.info, none, m⟩

/-- A success diagnostic event. -/
def successEvt (m : String) : DiagEvent := ⟨DiagLevel.success, none, m⟩

/-- A failure diagnostic event tagged with its error code. -/
def failEvt (e : ErrorCode) (m : String) : DiagEvent := ⟨DiagLevel.error, some e, m⟩

/-- State at component mount: phase Uninitialized, nothing set. -/
def initialState : Controller :=
  ⟨⟨Phase.Uninitialized, false, none, false, none⟩, [], 0⟩

/-- The alphabet of controller operations and endpoint/platform signals.
Operations are the public methods of the controller; signals are the
asynchronous notifications from the endpoint collaborator. -/
inductive Event
  | opInitialize (micGranted : Bool)
  | sigTokenResult (ok : Bool) (payload : String)
  | sigRegistered
  | sigEndpointError (msg : String)
  | opPlaceCall (dest : String) (cid : Nat)
  | sigIncoming (cid : Nat)
  | sigConnect
  | sigDisconnect
  | opToggleMute
  | opHangUp
  | opTeardown

/-- Modelled from the spec: the CallSessionController state machine
(sections 3 to 7 of the specification).  The controller is the unit the
specification extracts from the six source variants; it is not present
as a standalone module in the source tree, so its transition function is
taken from the specification text:

  - initialize (precondition Uninitialized or Failed): requests the
    microphone first; refusal fails with PermissionDenied before any
    token POST; otherwise a single token POST is issued and the phase
    becomes AcquiringToken.  From Ready/InCall (or any other phase) it
    is a no-op reporting AlreadyInitialized.
  - token result: success moves AcquiringToken to Registering; a non-2xx
    outcome fails with TokenRequestFailed.
  - registered signal: Registering to Ready.
  - endpoint error signal: sets Failed only on the initialization path
    (during Registering); otherwise it is reported to the sink only.
  - placeCall: requires phase Ready (NotReady otherwise) and a non-empty
    destination (EmptyDestination otherwise); dials and tracks the call.
  - incoming signal: auto-accepted from Ready, converging on InCall.
  - connect signal: confirms a dial; only a Dialing controller moves to
    InCall, so a stale connect after hangUp is ignored.
  - disconnect signal: confirms the end of the tracked call, returning
    to Ready and clearing activeCallId and muted.
  - toggleMute: flips muted while InCall; NoActiveCall otherwise.
  - hangUp: InCall or Dialing moves to Ending; NoActiveCall otherwise.
  - teardown: total, always resets to Uninitialized. -/
def step (c : Controller) (e : Event) : Controller :=
  match e with
  | Event.opInitialize micGranted =>
      if c.session.phase = Phase.Uninitialized ∨ c.session.phase = Phase.Failed then
        if micGranted then
          { c with
              session := { c.session with phase := Phase.AcquiringToken, lastError := none }
              diag := infoEvt "Requesting token..." :: c.diag
              tokenRequests := c.tokenRequests + 1 }
        else
          { c with
              session := { c.session with
                phase := Phase.Failed, lastError := some ErrorCode.PermissionDenied }
              diag := failEvt ErrorCode.PermissionDenied "Init failed: microphone permission denied" :: c.diag }
      else
        { c with diag := failEvt ErrorCode.AlreadyInitialized "Already initialized" :: c.diag }
  | Event.sigTokenResult ok payload =>
      if c.session.phase = Phase.AcquiringToken then
        if ok then
          { c with
              session := { c.session with phase := Phase.Registering }
              diag := successEvt ("Token received. Identity: " ++ payload) :: c.diag }
        else
          { c with
              session := { c.session with
                phase := Phase.Failed, lastError := some ErrorCode.TokenRequestFailed }
              diag := failEvt ErrorCode.TokenRequestFailed ("Token request failed: " ++ payload) :: c.diag }
      else c
  | Event.sigRegistered =>
      if c.session.phase = Phase.Registering then
        { c with
            session := { c.session with phase := Phase.Ready, deviceReady := true }
            diag := successEvt "Device registered & ready" :: c.diag }
      else c
  | Event.sigEndpointError m =>
      if c.session.phase = Phase.Registering then
        { c with
            session := { c.session with
              phase := Phase.Failed, lastError := some ErrorCode.EndpointError }
            diag := failEvt ErrorCode.EndpointError ("Device error: " ++ m) :: c.diag }
      else
        { c with diag := failEvt ErrorCode.EndpointError ("Device error: " ++ m) :: c.diag }
  | Event.opPlaceCall dest cid =>
      if c.session.phase ≠ Phase.Ready then
        { c with diag := failEvt ErrorCode.NotReady "Device not initialized" :: c.diag }
      else if dest = "" then
        { c with diag := failEvt ErrorCode.EmptyDestination "Enter number / agent ID" :: c.diag }
      else
        { c with
            session := { c.session with phase := Phase.Dialing, activeCallId := some cid }
            diag := infoEvt ("Calling " ++ dest ++ "...") :: c.diag }
  | Event.sigIncoming cid =>
      if c.session.phase = Phase.Ready then
        { c with
            session := { c.session with
              phase := Phase.InCall, activeCallId := some cid, muted := false }
            diag := successEvt "Call connected" :: c.diag }
      else c
  | Event.sigConnect =>
      if c.session.phase = Phase.Dialing then
        { c with
            session := { c.session with phase := Phase.InCall, muted := false }
            diag := successEvt "Call connected" :: c.diag }
      else c
  | Event.sigDisconnect =>
      if c.session.phase = Phase.Dialing ∨ c.session.phase = Phase.InCall ∨
          c.session.phase = Phase.Ending then
        { c with
            session := { c.session with
              phase := Phase.Ready, activeCallId := none, muted := false }
            diag := infoEvt "Call disconnected" :: c.diag }
      else c
  | Event.opToggleMute =>
      if c.session.phase = Phase.InCall then
        { c with
            session := { c.session with muted := !c.session.muted }
            diag := infoEvt (if c.session.muted then "Unmuted" else "Muted") :: c.diag }
      else
        { c with diag := failEvt ErrorCode.NoActiveCall "No active call" :: c.diag }
  | Event.opHangUp =>
      if c.session.phase = Phase.InCall ∨ c.session.phase = Phase.Dialing then
        { c with
            session := { c.session with phase := Phase.Ending }
            diag := infoEvt "Ending call" :: c.diag }
      else
        { c with diag := failEvt ErrorCode.NoActiveCall "No active call" :: c.diag }
  | Event.opTeardown =>
      { c with
          session := ⟨Phase.Uninitialized, false, none, false, none⟩
          diag := infoEvt "Teardown" :: c.diag }

/-- Run a sequence of operations and signals from a controller state. -/
def run (c : Controller) (evts : List Event) : Controller :=
  evts.foldl step c

/-- The activeCallId invariant of the data model: the call identifier is
present exactly in the Dialing, InCall and Ending phases. -/
def ActiveCallInv (s : SessionState) : Prop :=
  s.activeCallId.isSome = true ↔
    (s.phase = Phase.Dialing ∨ s.phase = Phase.InCall ∨ s.phase = Phase.Ending)

/-- The precondition-guard failures of the three call operations:
placeCall outside Ready or with a blank destination, toggleMute outside
InCall, hangUp outside InCall/Dialing. -/
def opGuardFails (c : Controller) (e : Event) : Prop :=
  match e with
  | Event.opPlaceCall dest _ => c.session.phase ≠ Phase.Ready ∨ dest = ""
  | Event.opToggleMute => c.session.phase ≠ Phase.InCall
  | Event.opHangUp => c.session.phase ≠ Phase.InCall ∧ c.session.phase ≠ Phase.Dialing
  | _ => False

/-- A controller that has completed initialization: mic granted, token
received, endpoint registered. -/
def readyState : Controller :=
  run initialState
    [Event.opInitialize true, Event.sigTokenResult true "agent_web_01", Event.sigRegistered]

/-- A controller that has dialed and is waiting for the connect
confirmation. -/
def dialingState : Controller :=
  step readyState (Event.opPlaceCall "agent_123" 7)

/-- A controller in an established call. -/
def inCallState : Controller :=
  step dialingState Event.sigConnect

end TwilioVoice

namespace TwilioVoice

/-! Embedding of the source log routine (VoiceClient.jsx and variants):
a call prepends one timestamped, level-prefixed line to the textarea
value, keeping the previous text below it. -/

/-- Level prefix chosen by the source log function from its type string:
an error mark for "error", a success mark for "success", an info mark
otherwise (the default). -/
def logPrefixFor (type : String) : String :=
  if type = "error" then "❌" else if type = "success" then "✅" else "ℹ️"

/-- One rendered log line, `timestamp prefix message` plus a newline,
exactly as the source formats it. -/
def logEntry (timestamp type message : String) : String :=
  timestamp ++ " " ++ logPrefixFor type ++ " " ++ message ++ "\n"

/-- The source log body: the new entry followed by the previous textarea
value (newest first). -/
def logWrite (timestamp type message old : String) : String :=
  logEntry timestamp type message ++ old

/-- One recorded invocation of the log routine. -/
structure LogCall where
  timestamp : String
  type : String
  message : String

/-- A sequence of log invocations applied to an initial textarea value. -/
def logRun (calls : List LogCall) (old : String) : String :=
  calls.foldl (fun acc c => logWrite c.timestamp c.type c.message acc) old

/-! Embedding of the source getToken routines.  The fetch response is
modelled by its status, its body text and the token/identity fields of
its parsed JSON body; the requests a run issues are returned alongside
the result. -/

/-- One HTTP request issued through fetch. -/
structure FetchRequest where
  url : String
  verb : String
  body : String
deriving DecidableEq

/-- The observable parts of the fetch response consumed by getToken. -/
structure HttpResponse where
  status : Nat
  bodyText : String
  token : String
  identity : String
deriving DecidableEq

/-- The res.ok flag of the platform fetch API: status in the 2xx range. -/
def resOk (r : HttpResponse) : Bool :=
  decide (200 ≤ r.status ∧ r.status < 300)

/-- backendUrl.replace of a single trailing slash, as in the source. -/
def stripTrailingSlash (s : String) : String :=
  if s.endsWith "/" then s.dropRight 1 else s

/-- The token endpoint URL built by the source getToken. -/
def tokenEndpoint (backendUrl : String) : String :=
  stripTrailingSlash backendUrl ++ "/api/v1/telephony/access-token"

/-- JSON.stringify of an object with the single identity field. -/
def jsonIdentityBody (identity : String) : String :=
  "\x7b\"identity\":\"" ++ identity ++ "\"\x7d"

/-- getToken as written in src/src/VoiceClient.jsx (first component,
lines 28-48): one POST of the identity JSON body to the token endpoint;
a response outside the 2xx range throws a Token-request-failed error
carrying the response body text; a 2xx response yields the token field
of the parsed JSON. -/
def getTokenMain (backendUrl identity : String) (res : HttpResponse) :
    List FetchRequest × Except String String :=
  ([⟨tokenEndpoint backendUrl, "POST", jsonIdentityBody identity⟩],
   if resOk res then Except.ok res.token
   else Except.error ("Token request failed: " ++ res.bodyText))

/-- getToken as written in the unnamed copy variant (src/unnamed/part_000,
lines 27-35): one POST of the identity JSON body, but the HTTP status is
never inspected; the token field of the parsed body is returned
unconditionally. -/
def getTokenCopy (backendUrl identity : String) (res : HttpResponse) :
    List FetchRequest × Except String String :=
  ([⟨backendUrl ++ "/api/v1/telephony/access-token", "POST", jsonIdentityBody identity⟩],
   Except.ok res.token)

end TwilioVoice

namespace TwilioVoice

theorem step_activeCallInv (c : Controller) (e : Event) (h : ActiveCallInv c.session) :
    ActiveCallInv (step c e).session := by
  rcases c with ⟨⟨ph, dr, ac, mu, le⟩, dg, tr⟩
  cases e <;> cases ph <;>
    simp_all [step, ActiveCallInv] <;>
    split_ifs <;>
    simp_all

theorem run_activeCallInv (evts : List Event) (c : Controller)
    (h : ActiveCallInv c.session) : ActiveCallInv (run c evts).session := by
  induction evts generalizing c with
  | nil => simpa [run] using h
  | cons e es ih =>
      have h1 : ActiveCallInv (step c e).session := step_activeCallInv c e h
      simpa [run, List.foldl] using ih (step c e) h1

end TwilioVoice

namespace TwilioVoice

/-- C1: for every sequence of controller operations and endpoint signals
starting from the initial state, activeCallId is set (non-null) if and
only if the phase is one of Dialing, InCall, Ending. -/
theorem claim1_activeCallId_iff_call_phase (evts : List Event) :
    ActiveCallInv (run initialState evts).session :=
  run_activeCallInv evts initialState (by simp [ActiveCallInv, initialState])

/-- C2: if hangUp is invoked while the phase is Dialing and the pending
connect confirmation of the superseded call arrives afterwards, the
controller never enters InCall on the stale connect signal; it is in
Ending when the signal is consumed. -/
theorem claim2_stale_connect_after_hangup (c : Controller)
    (h : c.session.phase = Phase.Dialing) :
    (step (step c Event.opHangUp) Event.sigConnect).session.phase = Phase.Ending ∧
    (step (step c Event.opHangUp) Event.sigConnect).session.phase ≠ Phase.InCall := by
  constructor <;> simp [step, h]

/-- Witness for C2 at a concrete dialing controller. -/
theorem claim2_stale_connect_after_hangup_witness :
    dialingState.session.phase = Phase.Dialing ∧
    ((step (step dialingState Event.opHangUp) Event.sigConnect).session.phase = Phase.Ending ∧
     (step (step dialingState Event.opHangUp) Event.sigConnect).session.phase ≠ Phase.InCall) := by
  have h : dialingState.session.phase = Phase.Dialing := by decide
  exact ⟨h, claim2_stale_connect_after_hangup dialingState h⟩

/-- C3: a run of initialize in which the platform refuses microphone
permission ends with phase Failed and lastError PermissionDenied, and
issues no token POST to the backend. -/
theorem claim3_mic_denied_no_token_post (c : Controller)
    (h : c.session.phase = Phase.Uninitialized ∨ c.session.phase = Phase.Failed) :
    (step c (Event.opInitialize false)).session.phase = Phase.Failed ∧
    (step c (Event.opInitialize false)).session.lastError = some ErrorCode.PermissionDenied ∧
    (step c (Event.opInitialize false)).tokenRequests = c.tokenRequests := by
  rcases h with h | h <;> simp [step, h]

/-- Witness for C3 at the mount state. -/
theorem claim3_mic_denied_no_token_post_witness :
    (initialState.session.phase = Phase.Uninitialized ∨
      initialState.session.phase = Phase.Failed) ∧
    ((step initialState (Event.opInitialize false)).session.phase = Phase.Failed ∧
     (step initialState (Event.opInitialize false)).session.lastError =
       some ErrorCode.PermissionDenied ∧
     (step initialState (Event.opInitialize false)).tokenRequests =
       initialState.tokenRequests) := by
  have h : initialState.session.phase = Phase.Uninitialized ∨
      initialState.session.phase = Phase.Failed := Or.inl (by decide)
  exact ⟨h, claim3_mic_denied_no_token_post initialState h⟩

/-- C7: while InCall, invoking toggleMute twice in succession returns
muted to the value it had before the first invocation. -/
theorem claim7_toggleMute_double_parity (c : Controller)
    (h : c.session.phase = Phase.InCall) :
    (step (step c Event.opToggleMute) Event.opToggleMute).session.muted =
      c.session.muted := by
  simp [step, h]

/-- Witness for C7 at a concrete in-call controller. -/
theorem claim7_toggleMute_double_parity_witness :
    inCallState.session.phase = Phase.InCall ∧
    (step (step inCallState Event.opToggleMute) Event.opToggleMute).session.muted =
      inCallState.session.muted := by
  have h : inCallState.session.phase = Phase.InCall := by decide
  exact ⟨h, claim7_toggleMute_double_parity inCallState h⟩

/-- C9: teardown from any controller state (hence from each of the 8
phases) is a total transition ending with phase Uninitialized, and a
second teardown from the resulting state is equally safe, ending in the
same phase.  Totality of the transition function models the absence of
a thrown error. -/
theorem claim9_teardown_always_safe (c : Controller) :
    (step c Event.opTeardown).session.phase = Phase.Uninitialized ∧
    (step (step c Event.opTeardown) Event.opTeardown).session.phase =
      Phase.Uninitialized := by
  constructor <;> simp [step]

end TwilioVoice

namespace TwilioVoice

/-- C5: in every controller state whose phase is Dialing or InCall (one
call already initiated or accepted, hence exactly one call tracked), a
further placeCall invocation is rejected rather than queued: the session
state is unchanged, the one tracked call remains the only one, and
exactly one NotReady rejection diagnostic is emitted. -/
theorem claim5_second_placeCall_rejected (c : Controller) (dest : String) (cid : Nat)
    (h : c.session.phase = Phase.Dialing ∨ c.session.phase = Phase.InCall)
    (hinv : ActiveCallInv c.session) :
    (step c (Event.opPlaceCall dest cid)).session = c.session ∧
    (step c (Event.opPlaceCall dest cid)).session.activeCallId.isSome = true ∧
    (step c (Event.opPlaceCall dest cid)).diag =
      failEvt ErrorCode.NotReady "Device not initialized" :: c.diag := by
  rcases h with h | h <;>
    refine ⟨?_, ?_, ?_⟩ <;>
    simp [step, h, ActiveCallInv] at hinv ⊢ <;>
    simp [hinv]

/-- Witness for C5: the InCall state reached by dialing and receiving
the connect confirmation; a second placeCall there is rejected. -/
theorem claim5_second_placeCall_rejected_witness :
    (inCallState.session.phase = Phase.Dialing ∨
      inCallState.session.phase = Phase.InCall) ∧
    ActiveCallInv inCallState.session ∧
    ((step inCallState (Event.opPlaceCall "agent_456" 8)).session = inCallState.session ∧
     (step inCallState (Event.opPlaceCall "agent_456" 8)).session.activeCallId.isSome = true ∧
     (step inCallState (Event.opPlaceCall "agent_456" 8)).diag =
       failEvt ErrorCode.NotReady "Device not initialized" :: inCallState.diag) := by
  have h : inCallState.session.phase = Phase.Dialing ∨
      inCallState.session.phase = Phase.InCall := Or.inr (by decide)
  have hinv : ActiveCallInv inCallState.session := by
    simp only [ActiveCallInv]
    decide
  exact ⟨h, hinv, claim5_second_placeCall_rejected inCallState "agent_456" 8 h hinv⟩

/-- C6: invoking initialize while the phase is Ready or InCall leaves
the session state (and the token-request count) unchanged and only
reports AlreadyInitialized to the diagnostic sink. -/
theorem claim6_initialize_noop_when_initialized (c : Controller) (mic : Bool)
    (h : c.session.phase = Phase.Ready ∨ c.session.phase = Phase.InCall) :
    (step c (Event.opInitialize mic)).session = c.session ∧
    (step c (Event.opInitialize mic)).tokenRequests = c.tokenRequests ∧
    (step c (Event.opInitialize mic)).diag =
      failEvt ErrorCode.AlreadyInitialized "Already initialized" :: c.diag := by
  rcases h with h | h <;> refine ⟨?_, ?_, ?_⟩ <;> simp [step, h]

/-- Witness for C6 at a concrete ready controller. -/
theorem claim6_initialize_noop_when_initialized_witness :
    (readyState.session.phase = Phase.Ready ∨ readyState.session.phase = Phase.InCall) ∧
    ((step readyState (Event.opInitialize true)).session = readyState.session ∧
     (step readyState (Event.opInitialize true)).tokenRequests = readyState.tokenRequests ∧
     (step readyState (Event.opInitialize true)).diag =
       failEvt ErrorCode.AlreadyInitialized "Already initialized" :: readyState.diag) := by
  have h : readyState.session.phase = Phase.Ready ∨ readyState.session.phase = Phase.InCall :=
    Or.inl (by decide)
  exact ⟨h, claim6_initialize_noop_when_initialized readyState true h⟩

/-- C8: an invocation of placeCall, toggleMute or hangUp whose
precondition guard fails leaves the session state and the token-request
count unchanged; its only effect is one error-level event, tagged with
its error code, on the diagnostic sink. -/
theorem claim8_guard_failure_frame (c : Controller) (e : Event)
    (h : opGuardFails c e) :
    (step c e).session = c.session ∧
    (step c e).tokenRequests = c.tokenRequests ∧
    ∃ d, (step c e).diag = d :: c.diag ∧
      d.level = DiagLevel.error ∧ d.err.isSome = true := by
  cases e <;> simp only [opGuardFails] at h
  case opPlaceCall dest cid =>
    by_cases hp : c.session.phase = Phase.Ready
    · have hd : dest = "" := by tauto
      refine ⟨?_, ?_, failEvt ErrorCode.EmptyDestination "Enter number / agent ID",
        ?_, rfl, rfl⟩ <;> simp [step, hp, hd]
    · refine ⟨?_, ?_, failEvt ErrorCode.NotReady "Device not initialized",
        ?_, rfl, rfl⟩ <;> simp [step, hp]
  case opToggleMute =>
    refine ⟨?_, ?_, failEvt ErrorCode.NoActiveCall "No active call",
      ?_, rfl, rfl⟩ <;> simp [step, h]
  case opHangUp =>
    obtain ⟨h1, h2⟩ := h
    refine ⟨?_, ?_, failEvt ErrorCode.NoActiveCall "No active call",
      ?_, rfl, rfl⟩ <;> simp [step, h1, h2]

/-- Witness for C8: toggleMute invoked at mount, where no call is
active. -/
theorem claim8_guard_failure_frame_witness :
    opGuardFails initialState Event.opToggleMute ∧
    ((step initialState Event.opToggleMute).session = initialState.session ∧
     (step initialState Event.opToggleMute).tokenRequests = initialState.tokenRequests ∧
     ∃ d, (step initialState Event.opToggleMute).diag = d :: initialState.diag ∧
       d.level = DiagLevel.error ∧ d.err.isSome = true) := by
  have h : opGuardFails initialState Event.opToggleMute := by
    simp [opGuardFails, initialState]
  exact ⟨h, claim8_guard_failure_frame initialState Event.opToggleMute h⟩

/-- C10: a call of the diagnostic log routine prepends exactly one
timestamped, level-prefixed entry in front of the existing text (which
persists unchanged below it, so the previous text length is preserved),
and over any sequence of log calls the record only grows, the old text
remaining a suffix of the new one. -/
theorem claim10_log_prepend_append_only (ts ty m old : String) (calls : List LogCall) :
    logWrite ts ty m old = logEntry ts ty m ++ old ∧
    (logWrite ts ty m old).length = (logEntry ts ty m).length + old.length ∧
    ∃ p, logRun calls old = p ++ old := by
  refine ⟨rfl, String.length_append _ _, ?_⟩
  induction calls generalizing old with
  | nil => exact ⟨"", (String.empty_append old).symm⟩
  | cons c cs ih =>
      obtain ⟨p, hp⟩ := ih (logWrite c.timestamp c.type c.message old)
      refine ⟨p ++ logEntry c.timestamp c.type c.message, ?_⟩
      have hrun : logRun (c :: cs) old =
          logRun cs (logWrite c.timestamp c.type c.message old) := rfl
      rw [hrun, hp, logWrite, String.append_assoc]

/-- C4 counterexample: the copy-variant token acquisition step
(src/unnamed/part_000) never inspects the HTTP status.  On a 500
response (outside the 2xx range) it still returns the token field
instead of failing with the body text, so the claimed failure iff
non-2xx equivalence is false for that step. -/
theorem claim4_copy_variant_ignores_status :
    (getTokenCopy "https://namunahai.surextechnologies.com" "agent_web_01"
        ⟨500, "Internal Server Error", "tok123", "agent_web_01"⟩).2 =
      Except.ok "tok123" ∧
    (getTokenCopy "https://namunahai.surextechnologies.com" "agent_web_01"
        ⟨500, "Internal Server Error", "tok123", "agent_web_01"⟩).2 ≠
      Except.error ("Token request failed: " ++ "Internal Server Error") ∧
    ¬(200 ≤ 500 ∧ 500 < 300) := by
  refine ⟨rfl, ?_, by decide⟩
  simp [getTokenCopy]

/-- C4 amended: for the VoiceClient.jsx token acquisition step, one POST
of the identity JSON body is issued to the token endpoint, the step
fails with the Token-request-failed message carrying the response body
text exactly when the HTTP status is outside the 2xx range, and on a
2xx status it returns the token field of the parsed JSON response. -/
theorem claim4_getTokenMain_contract (b i : String) (res : HttpResponse) :
    (getTokenMain b i res).1 = [⟨tokenEndpoint b, "POST", jsonIdentityBody i⟩] ∧
    ((getTokenMain b i res).2 =
        Except.error ("Token request failed: " ++ res.bodyText) ↔
      ¬(200 ≤ res.status ∧ res.status < 300)) ∧
    ((getTokenMain b i res).2 = Except.ok res.token ↔
      (200 ≤ res.status ∧ res.status < 300)) := by
  by_cases hr : 200 ≤ res.status ∧ res.status < 300 <;>
    simp [getTokenMain, resOk, hr]

end TwilioVoice
